import Mathlib

/-!
Verification of the `reth p2p` block-data retrieval pipeline
(`crates/cli/commands/src/p2p/mod.rs`): the bounded-retry wrapper built
from `--retries`, the hash-or-number identifier resolution, the body
cardinality validation, and the trusted-peer configuration merge.

Shallow embedding conventions:
* The fetch client is an oracle: each request kind is a function from the
  request data and the attempt index (0-based, counting calls made by the
  retry loop) to an `Except` result, so that per-attempt outcomes of a
  retried operation can differ.
* Network calls are logged in a `List CallEvent` trace returned alongside
  the result, so that "zero network calls" and ordering claims are statable.
* `backon`'s retry combinator (the external crate used at the `.retry(...)`
  call sites) is embedded by its documented semantics: the builder's
  `max_times` bounds the number of *retries after the first attempt*; the
  `notify` callback fires once before each retry, carrying the error of the
  failed attempt.
-/

/-- Embeds `backon::ConstantBuilder`: a constant-delay backoff with a bound
`max_times` on the number of retries (delays yielded). The delay is kept for
fidelity; no claim depends on real time. -/
structure ConstantBuilder where
  delay_ms : Nat
  max_times : Nat
deriving DecidableEq, Repr

/-- Embeds `backon::ConstantBuilder::default()`: 1 second delay, 3 retries. -/
def ConstantBuilder.default : ConstantBuilder :=
  { delay_ms := 1000, max_times := 3 }

/-- Embeds `backon::ConstantBuilder::with_max_times`. -/
def ConstantBuilder.with_max_times (b : ConstantBuilder) (n : Nat) : ConstantBuilder :=
  { b with max_times := n }

/-- Embeds `DownloadArgs::backoff` (mod.rs:208-210):
`ConstantBuilder::default().with_max_times(self.retries.max(1))`. -/
def DownloadArgs.backoff (retries : Nat) : ConstantBuilder :=
  ConstantBuilder.default.with_max_times (retries.max 1)

/-- Outcome of a retried operation: final result, the number of attempts
(calls of the wrapped operation) actually made, and the list of errors
passed to the `notify` callback, in order (one per retry that occurred). -/
structure RetryResult (ε α : Type) where
  result : Except ε α
  attempts : Nat
  notified : List ε
deriving Repr

/-- The loop of `backon`'s retry future: run the operation at the current
attempt index; on success stop; on failure, if the backoff still yields a
delay (`remaining > 0`), notify with the error and run again, otherwise the
last error is the final result. -/
def retryLoop (op : Nat → Except ε α) : Nat → Nat → RetryResult ε α
  | attempt, remaining =>
    match op attempt with
    | Except.ok a => ⟨Except.ok a, 1, []⟩
    | Except.error e =>
      match remaining with
      | 0 => ⟨Except.error e, 1, []⟩
      | r + 1 =>
        let rest := retryLoop op (attempt + 1) r
        ⟨rest.result, rest.attempts + 1, e :: rest.notified⟩

/-- Embeds `Retryable::retry(...).notify(...)` as used at mod.rs:39-42,
56-61, 65-71: the first attempt always runs; the builder's `max_times`
bounds the retries after it. -/
def Retryable.retry (op : Nat → Except ε α) (b : ConstantBuilder) : RetryResult ε α :=
  retryLoop op 0 b.max_times

/-- Embeds `alloy_eips::BlockHashOrNumber`: a block identifier, either a
hash or a height. Heights are `u64` in the source; no arithmetic is done on
them, so `Nat` is used. -/
inductive BlockHashOrNumber (Hash : Type) where
  | hash (h : Hash)
  | number (n : Nat)
deriving DecidableEq, Repr

/-- A sealed header as returned by `get_single_header`: the header payload
together with its hash (`SealedHeader::hash()` is an accessor). -/
structure SealedHeader (Header Hash : Type) where
  header : Header
  hash : Hash
deriving DecidableEq, Repr

/-- The fetch-client oracle. `get_single_header` (reth_node_core::utils,
external to this file's source) and `BodiesClient::get_block_bodies` are
consumed through this interface; the extra `Nat` argument is the attempt
index, so retried attempts may observe different outcomes.
`get_block_bodies` returns a peer id and the body list (the source's
`WithPeerId<Vec<_>>`, taken apart by `.split()`). -/
structure FetchClient (Header Hash Body PeerId ε : Type) where
  get_single_header : BlockHashOrNumber Hash → Nat → Except ε (SealedHeader Header Hash)
  get_block_bodies : List Hash → Nat → Except ε (PeerId × List Body)

/-- One observable network request issued through the fetch client. -/
inductive CallEvent (Hash : Type) where
  | headerReq (id : BlockHashOrNumber Hash)
  | bodiesReq (hashes : List Hash)
deriving DecidableEq, Repr

/-- Errors surfaced by the `execute` body path: a propagated fetch error
(after retries are exhausted), the `eyre::bail!` cardinality mismatch of
mod.rs:73-78 (recording expected and received counts), and the panic of the
`.unwrap()` at mod.rs:79 were it ever reached on an empty list. -/
inductive ExecError (ε : Type) where
  | fetch (e : ε)
  | countMismatch (expected received : Nat)
  | panicEmpty
deriving DecidableEq, Repr

/-- Embeds the `hash` computation of the `Body` arm (mod.rs:51-64): a hash
identifier is used unchanged with no network activity; a numeric identifier
triggers a retried `get_single_header` whose sealed hash is taken. Returns
the resolved hash (or the propagated fetch error) together with the trace
of network calls made. -/
def resolve_hash (client : FetchClient H Hash B P ε) (b : ConstantBuilder) :
    BlockHashOrNumber Hash → Except ε Hash × List (CallEvent Hash)
  | BlockHashOrNumber.hash h => (Except.ok h, [])
  | BlockHashOrNumber.number n =>
    let r := Retryable.retry
      (fun i => client.get_single_header (BlockHashOrNumber.number n) i) b
    (r.result.map SealedHeader.hash,
      List.replicate r.attempts (CallEvent.headerReq (BlockHashOrNumber.number n)))

/-- Embeds the `Header` arm of `Command::execute` (mod.rs:34-44): one
retried `get_single_header` for the given identifier. -/
def execute_header (client : FetchClient H Hash B P ε) (retries : Nat)
    (id : BlockHashOrNumber Hash) :
    Except ε (SealedHeader H Hash) × List (CallEvent Hash) :=
  let r := Retryable.retry (fun i => client.get_single_header id i)
    (DownloadArgs.backoff retries)
  (r.result, List.replicate r.attempts (CallEvent.headerReq id))

/-- Embeds mod.rs:65-80, the part of the `Body` arm after the hash is
fixed: a retried `get_block_bodies(vec![hash])`, `.split()` discarding the
peer id, the `result.len() != 1` bail, and the
`result.into_iter().next().unwrap()` extraction (modelled by `head?`, with
the impossible `none` branch mapped to `ExecError.panicEmpty`). -/
def fetch_body (client : FetchClient H Hash B P ε) (b : ConstantBuilder) (hash : Hash) :
    Except (ExecError ε) B × List (CallEvent Hash) :=
  let r := Retryable.retry (fun i => client.get_block_bodies [hash] i) b
  let tr := List.replicate r.attempts (CallEvent.bodiesReq [hash])
  match r.result with
  | Except.error e => (Except.error (ExecError.fetch e), tr)
  | Except.ok (_, result) =>
    if result.length ≠ 1 then
      (Except.error (ExecError.countMismatch 1 result.length), tr)
    else
      match result.head? with
      | some body => (Except.ok body, tr)
      | none => (Except.error ExecError.panicEmpty, tr)

/-- Embeds the whole `Body` arm of `Command::execute` (mod.rs:46-81):
resolve the identifier to a hash, then fetch and validate the body. -/
def execute_body (client : FetchClient H Hash B P ε) (retries : Nat)
    (id : BlockHashOrNumber Hash) :
    Except (ExecError ε) B × List (CallEvent Hash) :=
  let bo := DownloadArgs.backoff retries
  match resolve_hash client bo id with
  | (Except.error e, tr) => (Except.error (ExecError.fetch e), tr)
  | (Except.ok hash, tr) =>
    let fb := fetch_body client bo hash
    (fb.1, tr ++ fb.2)

/-- Embeds the `peers` part of `reth_config::Config` used by
`launch_network`: the set of trusted peers (a `HashSet` in the source,
modelled as a `Finset`) and the `trusted_nodes_only` flag. -/
structure PeersConfig (Peer : Type) [DecidableEq Peer] where
  trusted_nodes : Finset Peer
  trusted_nodes_only : Bool

/-- The slice of `reth_config::Config` this flow reads and writes. -/
structure Config (Peer : Type) [DecidableEq Peer] where
  peers : PeersConfig Peer

/-- Embeds `Config::default()`: no trusted peers, `trusted_nodes_only = false`. -/
def Config.default (Peer : Type) [DecidableEq Peer] : Config Peer :=
  ⟨⟨∅, false⟩⟩

/-- Embeds mod.rs:175-183: extend the persisted trusted set with the CLI
peers, bail if the merged set is empty while `--trusted-only` is set, and
overwrite `trusted_nodes_only` with the CLI flag. -/
def merge_trusted [DecidableEq Peer] (config : Config Peer)
    (cli_trusted : Finset Peer) (trusted_only : Bool) :
    Except String (Config Peer) :=
  let trusted := config.peers.trusted_nodes ∪ cli_trusted
  if trusted = ∅ ∧ trusted_only = true then
    Except.error "No trusted nodes. Set trusted peer with --trusted-peer <enode record> or set --trusted-only to false"
  else
    Except.ok ⟨⟨trusted, trusted_only⟩⟩

/-- Embeds the configuration phase of `DownloadArgs::launch_network`
(mod.rs:173-183), the part of the function whose behaviour the claims are
about. `load_result` is the outcome of `Config::from_path(&config_path)`;
the source applies `.unwrap_or_default()` to it, so a load failure is
replaced by `Config::default()` before the trusted-peer merge runs. The
identity loading, socket binding and actor spawn that follow a successful
merge are external effects outside this embedding. -/
def launch_network [DecidableEq Peer] (load_result : Except εc (Config Peer))
    (cli_trusted : Finset Peer) (trusted_only : Bool) :
    Except String (Config Peer) :=
  let config := load_result.toOption.getD (Config.default Peer)
  merge_trusted config cli_trusted trusted_only

theorem retryLoop_attempts_le (op : Nat → Except ε α) (s r : Nat) :
    (retryLoop op s r).attempts ≤ r + 1 := by
  induction r generalizing s with
  | zero =>
    unfold retryLoop
    cases hop : op s with
    | ok a => simp
    | error e => simp
  | succ r ih =>
    unfold retryLoop
    cases hop : op s with
    | ok a => simp
    | error e =>
      simp only []
      have := ih (s + 1)
      omega

theorem retryLoop_attempts_persistent (op : Nat → Except ε α)
    (hfail : ∀ i, ∃ e, op i = Except.error e) (s r : Nat) :
    (retryLoop op s r).attempts = r + 1 := by
  induction r generalizing s with
  | zero =>
    unfold retryLoop
    cases hop : op s with
    | ok a =>
      obtain ⟨e, he⟩ := hfail s
      simp [hop] at he
    | error e => simp
  | succ r ih =>
    unfold retryLoop
    cases hop : op s with
    | ok a =>
      obtain ⟨e, he⟩ := hfail s
      simp [hop] at he
    | error e =>
      simp only []
      have := ih (s + 1)
      omega

theorem retryLoop_notified_length (op : Nat → Except ε α) (s r : Nat) :
    (retryLoop op s r).notified.length + 1 = (retryLoop op s r).attempts := by
  induction r generalizing s with
  | zero =>
    unfold retryLoop
    cases hop : op s with
    | ok a => simp
    | error e => simp
  | succ r ih =>
    unfold retryLoop
    cases hop : op s with
    | ok a => simp
    | error e =>
      simp only [List.length_cons]
      have := ih (s + 1)
      omega

theorem retryLoop_notified_mem (op : Nat → Except ε α) (s r : Nat) :
    ∀ e ∈ (retryLoop op s r).notified, ∃ i, op i = Except.error e := by
  induction r generalizing s with
  | zero =>
    unfold retryLoop
    cases hop : op s with
    | ok a => simp
    | error e => simp
  | succ r ih =>
    unfold retryLoop
    cases hop : op s with
    | ok a => simp
    | error e =>
      intro x hx
      simp only [List.mem_cons] at hx
      rcases hx with hx | hx
      · exact ⟨s, by rw [hop, hx]⟩
      · exact ih (s + 1) x hx

/-- C1, counterexample: the claim says the retry wrapper built from a
configured retry count `r` makes exactly `max(1, r)` attempts under
persistent failure, so `r = 0` would mean a single attempt. On the code,
`backoff(0)` allows `max(0, 1) = 1` retry AFTER the first attempt, so a
persistently failing operation is attempted twice, not once. -/
theorem c1_attempts_counterexample :
    (Retryable.retry (fun _ => (Except.error () : Except Unit Unit))
      (DownloadArgs.backoff 0)).attempts ≠ Nat.max 1 0 := by
  decide

/-- C1, amended: under persistent failure the wrapper makes exactly
`max(1, r) + 1` attempts of the wrapped operation — the initial attempt
plus `max(1, r)` retries — and never more than that for any operation; in
particular a configured value of 0 is treated as one retry, so the first
failure is followed by exactly one more attempt before becoming fatal. -/
theorem c1_attempts_max_plus_one (r : Nat) (op : Nat → Except ε α)
    (hfail : ∀ i, ∃ e, op i = Except.error e) :
    (Retryable.retry op (DownloadArgs.backoff r)).attempts = Nat.max 1 r + 1 ∧
    ∀ (op2 : Nat → Except ε α),
      (Retryable.retry op2 (DownloadArgs.backoff r)).attempts ≤ Nat.max 1 r + 1 := by
  constructor
  · have h := retryLoop_attempts_persistent op hfail 0 (DownloadArgs.backoff r).max_times
    have hmt : (DownloadArgs.backoff r).max_times = Nat.max 1 r := by
      simp [DownloadArgs.backoff, ConstantBuilder.with_max_times, ConstantBuilder.default,
        Nat.max_comm]
    exact h.trans (by rw [hmt])
  · intro op2
    have h := retryLoop_attempts_le op2 0 (DownloadArgs.backoff r).max_times
    have hmt : (DownloadArgs.backoff r).max_times = Nat.max 1 r := by
      simp [DownloadArgs.backoff, ConstantBuilder.with_max_times, ConstantBuilder.default,
        Nat.max_comm]
    exact le_of_le_of_eq h (by rw [hmt])

/-- C1 witness: at `r = 0` with a persistently failing operation, the
amended theorem yields exactly `max(1, 0) + 1 = 2` attempts. -/
theorem c1_attempts_max_plus_one_witness :
    (∀ i : Nat, ∃ e : Unit, (fun _ => (Except.error () : Except Unit Unit)) i = Except.error e) ∧
    (Retryable.retry (fun _ => (Except.error () : Except Unit Unit))
      (DownloadArgs.backoff 0)).attempts = Nat.max 1 0 + 1 :=
  ⟨fun _ => ⟨(), rfl⟩,
    (c1_attempts_max_plus_one 0 (fun _ => Except.error ()) (fun _ => ⟨(), rfl⟩)).1⟩

/-- C6: with configured retries = 5, an operation failing on attempts
0-3 and succeeding on attempt 4 (the 5th attempt) yields the 5th attempt's
result, 5 attempts in total, and exactly 4 retry notifications, each
carrying the corresponding failed attempt's error. -/
theorem c6_five_retries_fourth_success (ε α : Type) (errs : Nat → ε) (v : α) :
    Retryable.retry (fun i => if i < 4 then Except.error (errs i) else Except.ok v)
        (DownloadArgs.backoff 5)
      = ⟨Except.ok v, 5, [errs 0, errs 1, errs 2, errs 3]⟩ := by
  rfl

/-- C2: the trusted-peer merge fails if and only if the merged trusted set
is empty while `--trusted-only` is set; any merge yielding a non-empty
trusted set is accepted regardless of the flag. -/
theorem c2_trusted_merge_fails_iff (Peer : Type) [DecidableEq Peer]
    (config : Config Peer) (cli_trusted : Finset Peer) (trusted_only : Bool) :
    (merge_trusted config cli_trusted trusted_only).isOk = false ↔
      (config.peers.trusted_nodes ∪ cli_trusted = ∅ ∧ trusted_only = true) := by
  by_cases h : config.peers.trusted_nodes ∪ cli_trusted = ∅ ∧ trusted_only = true
  · simp [merge_trusted, h, Except.isOk, Except.toBool]
  · simp [merge_trusted, h, Except.isOk, Except.toBool]

/-- C4: resolving `number n` in the body path yields exactly the result of
the header path's retried fetch at `number n`, mapped through the sealed
header's hash. -/
theorem c4_number_resolution_is_header_hash (client : FetchClient H Hash B P ε)
    (r n : Nat) :
    (resolve_hash client (DownloadArgs.backoff r) (BlockHashOrNumber.number n)).1
      = ((execute_header client r (BlockHashOrNumber.number n)).1).map SealedHeader.hash :=
  rfl

/-- C5: resolving a hash identifier returns the hash unchanged and issues
zero network calls (empty call trace), for every client and backoff. -/
theorem c5_hash_resolution_identity (client : FetchClient H Hash B P ε)
    (b : ConstantBuilder) (h : Hash) :
    resolve_hash client b (BlockHashOrNumber.hash h)
      = (Except.ok h, ([] : List (CallEvent Hash))) :=
  rfl

/-- C9, counterexample: a failure to load the persisted configuration file
is not propagated — with no CLI trusted peers and trusted-only off, the
launch still succeeds on a load error, using the default configuration. -/
theorem c9_config_load_counterexample :
    (Except.error () : Except Unit (Config Nat)).isOk = false ∧
    (launch_network (Except.error () : Except Unit (Config Nat))
      (∅ : Finset Nat) false).isOk = true := by
  exact ⟨rfl, rfl⟩

/-- C9, amended: a failure to load the persisted configuration file is
silently replaced by the default configuration (`unwrap_or_default`), so
launching with a failed load behaves exactly like launching with a
successfully loaded default configuration; errors arising after that point
(the trusted-peer invariant check) are still surfaced. -/
theorem c9_config_load_replaced_by_default (εc Peer : Type) [DecidableEq Peer]
    (e : εc) (cli_trusted : Finset Peer) (trusted_only : Bool) :
    launch_network (Except.error e) cli_trusted trusted_only
        = launch_network (Except.ok (Config.default Peer) : Except εc (Config Peer))
            cli_trusted trusted_only ∧
    launch_network (Except.error e) (∅ : Finset Peer) true
        = Except.error "No trusted nodes. Set trusted peer with --trusted-peer <enode record> or set --trusted-only to false" := by
  constructor
  · rfl
  · simp [launch_network, merge_trusted, Config.default, Except.toOption]

theorem execute_body_resolve_error (client : FetchClient H Hash B P ε) (r : Nat)
    (id : BlockHashOrNumber Hash) (e : ε) (tr : List (CallEvent Hash))
    (h : resolve_hash client (DownloadArgs.backoff r) id = (Except.error e, tr)) :
    execute_body client r id = (Except.error (ExecError.fetch e), tr) := by
  simp [execute_body, h]

theorem execute_body_resolve_ok (client : FetchClient H Hash B P ε) (r : Nat)
    (id : BlockHashOrNumber Hash) (hash : Hash) (tr : List (CallEvent Hash))
    (h : resolve_hash client (DownloadArgs.backoff r) id = (Except.ok hash, tr)) :
    execute_body client r id
      = ((fetch_body client (DownloadArgs.backoff r) hash).1,
          tr ++ (fetch_body client (DownloadArgs.backoff r) hash).2) := by
  simp [execute_body, h]

theorem fetch_body_retry_error (client : FetchClient H Hash B P ε)
    (b : ConstantBuilder) (hash : Hash) (e : ε)
    (h : (Retryable.retry (fun i => client.get_block_bodies [hash] i) b).result
        = Except.error e) :
    (fetch_body client b hash).1 = Except.error (ExecError.fetch e) := by
  simp [fetch_body, h]

theorem fetch_body_retry_ok (client : FetchClient H Hash B P ε)
    (b : ConstantBuilder) (hash : Hash) (peer : P) (bodies : List B)
    (h : (Retryable.retry (fun i => client.get_block_bodies [hash] i) b).result
        = Except.ok (peer, bodies)) :
    (fetch_body client b hash).1
      = if bodies.length ≠ 1 then
          Except.error (ExecError.countMismatch 1 bodies.length)
        else
          match bodies.head? with
          | some body => Except.ok body
          | none => Except.error ExecError.panicEmpty := by
  simp [fetch_body, h]
  split
  · cases bodies.head? <;> rfl
  · rfl

theorem fetch_body_trace (client : FetchClient H Hash B P ε)
    (b : ConstantBuilder) (hash : Hash) :
    (fetch_body client b hash).2
      = List.replicate
          (Retryable.retry (fun i => client.get_block_bodies [hash] i) b).attempts
          (CallEvent.bodiesReq [hash]) := by
  simp only [fetch_body]
  split
  · rfl
  · split
    · rfl
    · split <;> rfl

/-- C3: once the retried body request has succeeded with body list
`bodies`, the operation fails with `countMismatch 1 bodies.length` whenever
`bodies.length ≠ 1`, regardless of the list's content, and returns the
single entry when `bodies = [b]`. -/
theorem c3_body_cardinality_validation (client : FetchClient H Hash B P ε)
    (r : Nat) (hash : Hash) (peer : P) (bodies : List B)
    (hok : (Retryable.retry (fun i => client.get_block_bodies [hash] i)
        (DownloadArgs.backoff r)).result = Except.ok (peer, bodies)) :
    (bodies.length ≠ 1 →
      (fetch_body client (DownloadArgs.backoff r) hash).1
        = Except.error (ExecError.countMismatch 1 bodies.length)) ∧
    ∀ b, bodies = [b] →
      (fetch_body client (DownloadArgs.backoff r) hash).1 = Except.ok b := by
  constructor
  · intro hne
    rw [fetch_body_retry_ok client _ hash peer bodies hok]
    simp [hne]
  · intro b hb
    subst hb
    rw [fetch_body_retry_ok client _ hash peer [b] hok]
    simp

/-- A concrete client over `Nat` payloads, used to instantiate theorems
with hypotheses: header requests succeed immediately, body requests always
return two entries. -/
def client_two_bodies : FetchClient Nat Nat Nat Nat Unit :=
  { get_single_header := fun id _ =>
      match id with
      | BlockHashOrNumber.hash h => Except.ok ⟨0, h⟩
      | BlockHashOrNumber.number n => Except.ok ⟨n, n + 100⟩
  , get_block_bodies := fun _ _ => Except.ok (7, [10, 20]) }

/-- C3 witness: against `client_two_bodies` the retried body request for
hash 5 succeeds with two entries, and the operation fails with
`countMismatch 1 2`. -/
theorem c3_body_cardinality_validation_witness :
    (Retryable.retry (fun i => client_two_bodies.get_block_bodies [5] i)
        (DownloadArgs.backoff 5)).result = Except.ok (7, [10, 20]) ∧
    (fetch_body client_two_bodies (DownloadArgs.backoff 5) 5).1
      = Except.error (ExecError.countMismatch 1 2) := by
  refine ⟨rfl, ?_⟩
  exact (c3_body_cardinality_validation client_two_bodies 5 5 7 [10, 20] rfl).1 (by decide)

/-- Holds (as `true`) exactly on the outcome modelling the
reached-`unwrap`-on-empty panic of mod.rs:79. -/
def reached_empty_unwrap (res : Except (ExecError ε) B) : Bool :=
  match res with
  | Except.error ExecError.panicEmpty => true
  | _ => false

theorem fetch_body_no_panic (client : FetchClient H Hash B P ε)
    (b : ConstantBuilder) (hash : Hash) :
    reached_empty_unwrap (fetch_body client b hash).1 = false := by
  cases hres : (Retryable.retry (fun i => client.get_block_bodies [hash] i) b).result with
  | error e =>
    rw [fetch_body_retry_error client b hash e hres]
    rfl
  | ok pr =>
    obtain ⟨peer, bodies⟩ := pr
    rw [fetch_body_retry_ok client b hash peer bodies hres]
    by_cases hlen : bodies.length = 1
    · obtain ⟨a, rfl⟩ := List.length_eq_one.mp hlen
      simp [reached_empty_unwrap]
    · simp [hlen, reached_empty_unwrap]

/-- C10: the `.unwrap()` extracting the single body entry is never reached
with an empty list — for every client, retry count and identifier, the body
path never produces the panic outcome. -/
theorem c10_unwrap_never_panics (client : FetchClient H Hash B P ε) (r : Nat)
    (id : BlockHashOrNumber Hash) :
    reached_empty_unwrap (execute_body client r id).1 = false := by
  rcases hres : resolve_hash client (DownloadArgs.backoff r) id with ⟨res, tr⟩
  cases res with
  | error e =>
    rw [execute_body_resolve_error client r id e tr hres]
    rfl
  | ok hash =>
    rw [execute_body_resolve_ok client r id hash tr hres]
    exact fetch_body_no_panic client (DownloadArgs.backoff r) hash

/-- C7: in the body path with a numeric identifier, the call trace is all
header requests first; body requests appear only after them, only when the
header resolution completed successfully, and each carries exactly the
resolved hash — no body request precedes or interleaves the header
resolution. -/
theorem c7_header_resolution_precedes_body (client : FetchClient H Hash B P ε)
    (r n : Nat) :
    ∃ k,
      (execute_body client r (BlockHashOrNumber.number n)).2
          = List.replicate k (CallEvent.headerReq (BlockHashOrNumber.number n)) ∨
      ∃ m hash,
        (execute_body client r (BlockHashOrNumber.number n)).2
            = List.replicate k (CallEvent.headerReq (BlockHashOrNumber.number n))
              ++ List.replicate m (CallEvent.bodiesReq [hash]) ∧
        (resolve_hash client (DownloadArgs.backoff r) (BlockHashOrNumber.number n)).1
            = Except.ok hash := by
  cases hres : (Retryable.retry
      (fun i => client.get_single_header (BlockHashOrNumber.number n) i)
      (DownloadArgs.backoff r)).result with
  | error e =>
    have hres2 : resolve_hash client (DownloadArgs.backoff r) (BlockHashOrNumber.number n)
        = (Except.error e,
            List.replicate (Retryable.retry
                (fun i => client.get_single_header (BlockHashOrNumber.number n) i)
                (DownloadArgs.backoff r)).attempts
              (CallEvent.headerReq (BlockHashOrNumber.number n))) := by
      simp [resolve_hash, hres, Except.map]
    refine ⟨(Retryable.retry
        (fun i => client.get_single_header (BlockHashOrNumber.number n) i)
        (DownloadArgs.backoff r)).attempts, Or.inl ?_⟩
    rw [execute_body_resolve_error client r (BlockHashOrNumber.number n) e _ hres2]
  | ok sh =>
    have hres2 : resolve_hash client (DownloadArgs.backoff r) (BlockHashOrNumber.number n)
        = (Except.ok sh.hash,
            List.replicate (Retryable.retry
                (fun i => client.get_single_header (BlockHashOrNumber.number n) i)
                (DownloadArgs.backoff r)).attempts
              (CallEvent.headerReq (BlockHashOrNumber.number n))) := by
      simp [resolve_hash, hres, Except.map]
    refine ⟨(Retryable.retry
        (fun i => client.get_single_header (BlockHashOrNumber.number n) i)
        (DownloadArgs.backoff r)).attempts,
      Or.inr ⟨(Retryable.retry (fun i => client.get_block_bodies [sh.hash] i)
          (DownloadArgs.backoff r)).attempts, sh.hash, ?_, by rw [hres2]⟩⟩
    rw [execute_body_resolve_ok client r (BlockHashOrNumber.number n) sh.hash _ hres2]
    simp [fetch_body_trace]

/-- C8: only transient fetch failures are retried, within the configured
budget: whenever the body path ends in a cardinality mismatch, the header
resolution and the body retry loop had both already returned success, the
mismatch causes no further network calls (the trace is exactly the
resolution calls followed by the body attempts), every retry notification
of the body loop corresponds to a failed fetch attempt, and the attempt
count stays within the budget. -/
theorem c8_only_fetch_failures_retried (client : FetchClient H Hash B P ε)
    (r : Nat) (id : BlockHashOrNumber Hash) (m : Nat)
    (h : (execute_body client r id).1 = Except.error (ExecError.countMismatch 1 m)) :
    ∃ hash tr peer bodies,
      resolve_hash client (DownloadArgs.backoff r) id = (Except.ok hash, tr) ∧
      (Retryable.retry (fun i => client.get_block_bodies [hash] i)
          (DownloadArgs.backoff r)).result = Except.ok (peer, bodies) ∧
      bodies.length = m ∧ m ≠ 1 ∧
      (execute_body client r id).2
          = tr ++ List.replicate
              (Retryable.retry (fun i => client.get_block_bodies [hash] i)
                (DownloadArgs.backoff r)).attempts
              (CallEvent.bodiesReq [hash]) ∧
      (Retryable.retry (fun i => client.get_block_bodies [hash] i)
          (DownloadArgs.backoff r)).notified.length + 1
        = (Retryable.retry (fun i => client.get_block_bodies [hash] i)
            (DownloadArgs.backoff r)).attempts ∧
      (Retryable.retry (fun i => client.get_block_bodies [hash] i)
          (DownloadArgs.backoff r)).attempts
        ≤ (DownloadArgs.backoff r).max_times + 1 ∧
      ∀ e ∈ (Retryable.retry (fun i => client.get_block_bodies [hash] i)
          (DownloadArgs.backoff r)).notified,
        ∃ i, client.get_block_bodies [hash] i = Except.error e := by
  rcases hres : resolve_hash client (DownloadArgs.backoff r) id with ⟨res, tr⟩
  cases res with
  | error e =>
    rw [execute_body_resolve_error client r id e tr hres] at h
    simp at h
  | ok hash =>
    rw [execute_body_resolve_ok client r id hash tr hres] at h
    dsimp only at h
    cases hbr : (Retryable.retry (fun i => client.get_block_bodies [hash] i)
        (DownloadArgs.backoff r)).result with
    | error e =>
      rw [fetch_body_retry_error client _ hash e hbr] at h
      simp at h
    | ok pr =>
      obtain ⟨peer, bodies⟩ := pr
      rw [fetch_body_retry_ok client _ hash peer bodies hbr] at h
      by_cases hlen : bodies.length = 1
      · obtain ⟨a, rfl⟩ := List.length_eq_one.mp hlen
        simp at h
      · simp only [ne_eq, hlen, not_false_eq_true, if_true, Except.error.injEq,
          ExecError.countMismatch.injEq, true_and] at h
        refine ⟨hash, tr, peer, bodies, rfl, hbr, h, ?_, ?_, ?_, ?_, ?_⟩
        · intro hm1
          exact hlen (h ▸ hm1)
        · rw [execute_body_resolve_ok client r id hash tr hres]
          simp [fetch_body_trace]
        · exact retryLoop_notified_length
            (fun i => client.get_block_bodies [hash] i) 0
            (DownloadArgs.backoff r).max_times
        · exact retryLoop_attempts_le
            (fun i => client.get_block_bodies [hash] i) 0
            (DownloadArgs.backoff r).max_times
        · exact retryLoop_notified_mem
            (fun i => client.get_block_bodies [hash] i) 0
            (DownloadArgs.backoff r).max_times

/-- C8 witness: against `client_two_bodies` with a hash identifier, the body
path ends in `countMismatch 1 2`, and the theorem's conclusion holds there. -/
theorem c8_only_fetch_failures_retried_witness :
    (execute_body client_two_bodies 5 (BlockHashOrNumber.hash 5)).1
        = Except.error (ExecError.countMismatch 1 2) ∧
    (∃ hash tr peer bodies,
      resolve_hash client_two_bodies (DownloadArgs.backoff 5) (BlockHashOrNumber.hash 5)
          = (Except.ok hash, tr) ∧
      (Retryable.retry (fun i => client_two_bodies.get_block_bodies [hash] i)
          (DownloadArgs.backoff 5)).result = Except.ok (peer, bodies) ∧
      bodies.length = 2 ∧ (2 : Nat) ≠ 1 ∧
      (execute_body client_two_bodies 5 (BlockHashOrNumber.hash 5)).2
          = tr ++ List.replicate
              (Retryable.retry (fun i => client_two_bodies.get_block_bodies [hash] i)
                (DownloadArgs.backoff 5)).attempts
              (CallEvent.bodiesReq [hash]) ∧
      (Retryable.retry (fun i => client_two_bodies.get_block_bodies [hash] i)
          (DownloadArgs.backoff 5)).notified.length + 1
        = (Retryable.retry (fun i => client_two_bodies.get_block_bodies [hash] i)
            (DownloadArgs.backoff 5)).attempts ∧
      (Retryable.retry (fun i => client_two_bodies.get_block_bodies [hash] i)
          (DownloadArgs.backoff 5)).attempts
        ≤ (DownloadArgs.backoff 5).max_times + 1 ∧
      ∀ e ∈ (Retryable.retry (fun i => client_two_bodies.get_block_bodies [hash] i)
          (DownloadArgs.backoff 5)).notified,
        ∃ i, client_two_bodies.get_block_bodies [hash] i = Except.error e) :=
  ⟨rfl, c8_only_fetch_failures_retried client_two_bodies 5 (BlockHashOrNumber.hash 5) 2 rfl⟩
